import Mathlib

/-
Verification of the blue-green deployment switch orchestrator of the
jenkins-ha repository.  The definitions below are shallow embeddings of
the Python functions in `scripts/update-team-environment.py` and of the
business-logic functions defined inside the test suite
(`tests/blue-green/test_failure_scenarios.py`,
`tests/blue-green/test_haproxy_routing.py`).  Timestamps are modelled as
integers (seconds), fractional metrics as rationals, and JSON/YAML
records as Lean structures with `Option` fields where a key may be
absent.
-/

namespace JenkinsHA

/-! ## Circuit breaker (`test_failure_scenarios.py`) -/

/-- Circuit-breaker state record, mirroring the JSON state file created
by the `circuit_breaker_state` fixture in `conftest.py`: keys `state`,
`failure_count`, `last_failure_time`, `cooldown_until`.  The `state`
field keeps the source's string values `"closed"`, `"open"`,
`"half-open"`. -/
structure CBState where
  state : String
  failure_count : Nat
  last_failure_time : Option Int
  cooldown_until : Int
deriving DecidableEq, Repr

/-- Embeds `update_circuit_breaker` (test_failure_scenarios.py, lines
369-384).  On a failure the count is incremented and
`last_failure_time` recorded; once the incremented count reaches 3 the
breaker opens with `cooldown_until = now + 1800`.  On a success the
count is reset to 0, the state set to `"closed"` and `cooldown_until`
to 0. -/
def update_circuit_breaker (st : CBState) (failure_occurred : Bool) (now : Int) : CBState :=
  if failure_occurred then
    let fc := st.failure_count + 1
    if 3 ≤ fc then
      { st with failure_count := fc, last_failure_time := some now,
                state := "open", cooldown_until := now + 1800 }
    else
      { st with failure_count := fc, last_failure_time := some now }
  else
    { st with failure_count := 0, state := "closed", cooldown_until := 0 }

/-- Embeds `can_execute_switch` (test_failure_scenarios.py, lines
408-423).  Returns the admission verdict, the message, and the state as
left on disk (the function rewrites the state file only on the
open-to-half-open transition). -/
def can_execute_switch (st : CBState) (now : Int) : Bool × String × CBState :=
  if st.state = "open" then
    if now < st.cooldown_until then
      (false, "Circuit breaker open - cooldown active", st)
    else
      (true, "Circuit breaker half-open - single attempt allowed",
        { st with state := "half-open" })
  else
    (true, "Circuit breaker closed - operations allowed", st)

/-- Embeds `attempt_recovery` (test_failure_scenarios.py, lines
456-470): if the breaker is open and the cooldown has elapsed, only the
`state` field is rewritten to `"half-open"`; otherwise nothing is
written. -/
def attempt_recovery (st : CBState) (now : Int) : Bool × String × CBState :=
  if st.state = "open" ∧ st.cooldown_until ≤ now then
    (true, "Transitioned to half-open state", { st with state := "half-open" })
  else
    (false, "Recovery not allowed yet", st)

/-! ## Rollback trigger and execution (`test_failure_scenarios.py`) -/

/-- Floor of a rational as an integer, computed from the reduced
numerator and denominator with flooring integer division. -/
def ratFloor (q : ℚ) : Int := Int.fdiv q.num q.den

/-- Render a rational as a percentage with two decimal places, as
Python's `.2%` format does on the exact decimal values arising in this
code base (ties round up; every value formatted by the source is
exact at two decimals, where the two conventions agree). -/
def formatPct (q : ℚ) : String :=
  let n : Int := ratFloor (q * 10000 + 1 / 2)
  let m := n.natAbs
  let fr := m % 100
  let frStr := if fr < 10 then "0" ++ toString fr else toString fr
  (if n < 0 then "-" else "") ++ toString (m / 100) ++ "." ++ frStr ++ "%"

/-- Embeds `should_rollback` (test_failure_scenarios.py, lines
252-265): collects one condition string per breached threshold —
error rate above 5%, average response time above 5000 ms, availability
below 95% — and returns the collected list. -/
def should_rollback (error_rate response_time availability : ℚ) : List String :=
  (if 5 / 100 < error_rate then
    ["High error rate: " ++ formatPct error_rate] else [])
  ++ (if 5000 < response_time then
    ["High response time: " ++ toString response_time ++ "ms"] else [])
  ++ (if availability < 95 / 100 then
    ["Low availability: " ++ formatPct availability] else [])

/-- Team record of the blue-green state file created by the
`blue_green_state_file` fixture in `conftest.py`; the two rollback
fields are absent until the first rollback writes them. -/
structure TeamRec where
  active_environment : String
  last_switch_time : Option String
  switch_count : Nat
  last_rollback_time : Option String
  last_rollback_reason : Option String
deriving DecidableEq, Repr

/-- The `teams` dictionary of the state file, as an association list in
insertion order (Python dict keys are unique). -/
abbrev TeamsState := List (String × TeamRec)

/-- First-match lookup in an association list keyed by strings,
modelling Python dict access. -/
def lookupDict {α : Type} : List (String × α) → String → Option α
  | [], _ => none
  | (k, v) :: rest, key => if k = key then some v else lookupDict rest key

/-- Replace the value at a key, keeping its position, modelling Python
in-place assignment to an existing dict entry. -/
def setDict {α : Type} : List (String × α) → String → α → List (String × α)
  | [], _, _ => []
  | (k, v) :: rest, key, v' =>
    if k = key then (k, v') :: rest else (k, v) :: setDict rest key v'

/-- Embeds `execute_rollback` (test_failure_scenarios.py, lines
291-306): an absent team fails; otherwise the team's environment is
flipped to the other colour, `switch_count` incremented and the two
rollback fields written, with success reported. -/
def execute_rollback (teams : TeamsState) (team_name reason : String) :
    Bool × String × TeamsState :=
  match lookupDict teams team_name with
  | none => (false, "Team " ++ team_name ++ " not found", teams)
  | some team =>
    let current_env := team.active_environment
    let target_env := if current_env = "green" then "blue" else "green"
    let team' : TeamRec :=
      { team with active_environment := target_env,
                  switch_count := team.switch_count + 1,
                  last_rollback_time := some "2024-01-01T12:00:00Z",
                  last_rollback_reason := some reason }
    (true, "Rolled back " ++ team_name ++ " from " ++ current_env ++ " to " ++ target_env,
      setDict teams team_name team')

/-! ## Resource-availability check (`test_failure_scenarios.py`) -/

/-- Threshold pair of `check_resource_availability`; the source default
is `{"cpu": 80, "memory": 85}`. -/
structure ResourceThresholds where
  cpu : ℚ
  memory : ℚ
deriving DecidableEq, Repr

/-- Default thresholds used when the caller passes `None`. -/
def defaultThresholds : ResourceThresholds := { cpu := 80, memory := 85 }

/-- The `issues` list built by `check_resource_availability`
(test_failure_scenarios.py, lines 89-105): one entry per threshold
exceeded, CPU first, each naming the actual and maximum values. -/
def resource_issues (cpu_usage memory_usage : ℚ) (th : ResourceThresholds) : List String :=
  (if th.cpu < cpu_usage then
    ["CPU usage too high: " ++ toString cpu_usage ++ "% (max: " ++ toString th.cpu ++ "%)"]
  else [])
  ++ (if th.memory < memory_usage then
    ["Memory usage too high: " ++ toString memory_usage ++ "% (max: " ++ toString th.memory ++ "%)"]
  else [])

/-- Embeds `check_resource_availability`: fails with the joined issue
list when any issue was collected, succeeds otherwise. -/
def check_resource_availability (cpu_usage memory_usage : ℚ) (th : ResourceThresholds) :
    Bool × String :=
  let issues := resource_issues cpu_usage memory_usage th
  if issues = [] then (true, "Resources available")
  else (false, String.intercalate "; " issues)

/-! ## HAProxy routing generation (`test_haproxy_routing.py`) -/

/-- Team entry of the routing generators: name and active colour, as in
the `team_configs` dictionaries of `test_haproxy_routing.py`. -/
structure TeamBG where
  team_name : String
  active_environment : String
deriving DecidableEq, Repr

/-- Dict assignment `d[k] = v`: replaces the value of an existing key in
place, otherwise appends the new entry. -/
def dictInsert {α : Type} : List (String × α) → String → α → List (String × α)
  | [], key, v => [(key, v)]
  | (k, v') :: rest, key, v =>
    if k = key then (k, v) :: rest else (k, v') :: dictInsert rest key v

/-- Build a dictionary by iterating over the team list and assigning
`d[team_name] = f team`, as both routing generators do. -/
def buildDict {α : Type} (f : TeamBG → α) : List TeamBG → List (String × α) → List (String × α)
  | [], acc => acc
  | t :: ts, acc => buildDict f ts (dictInsert acc t.team_name (f t))

/-- The other colour: `'green' if active_env == 'blue' else 'blue'`. -/
def otherEnv (env : String) : String := if env = "blue" then "green" else "blue"

/-- Per-team backend entry built by `update_haproxy_routing`
(test_haproxy_routing.py, lines 485-503). -/
structure Backend where
  primary : String
  backup : String
  active_port : Nat
deriving DecidableEq, Repr

/-- The backend entry `update_haproxy_routing` assigns for one team. -/
def backendFor (t : TeamBG) : Backend :=
  { primary := "jenkins-" ++ t.team_name ++ "-" ++ t.active_environment,
    backup := "jenkins-" ++ t.team_name ++ "-" ++ otherEnv t.active_environment,
    active_port := if t.active_environment = "blue" then 8080 else 8081 }

/-- Routing configuration returned by `update_haproxy_routing`. -/
structure HAProxyRouting where
  frontend : String
  backends : List (String × Backend)
deriving DecidableEq, Repr

/-- Embeds `update_haproxy_routing` (test_haproxy_routing.py, lines
485-503); the `active_environment` argument is accepted but unused, as
in the source. -/
def update_haproxy_routing (active_environment : String) (team_configs : List TeamBG) :
    HAProxyRouting :=
  { frontend := "jenkins_frontend", backends := buildDict backendFor team_configs [] }

/-- Per-team routing entry built by `configure_team_routing`
(test_haproxy_routing.py, lines 630-647). -/
structure TeamRouting where
  acl : String
  backend : String
  primary_server : String
  backup_server : String
  health_check : String
deriving DecidableEq, Repr

/-- The routing entry `configure_team_routing` assigns for one team. -/
def routingFor (t : TeamBG) : TeamRouting :=
  { acl := "path_beg /" ++ t.team_name ++ "/",
    backend := "jenkins_" ++ t.team_name ++ "_backend",
    primary_server := "jenkins-" ++ t.team_name ++ "-" ++ t.active_environment,
    backup_server := "jenkins-" ++ t.team_name ++ "-" ++ otherEnv t.active_environment,
    health_check := "httpchk GET /" ++ t.team_name ++ "/login" }

/-- Embeds `configure_team_routing` (test_haproxy_routing.py, lines
630-647). -/
def configure_team_routing (teams : List TeamBG) : List (String × TeamRouting) :=
  buildDict routingFor teams []

/-! ## Team-environment script (`scripts/update-team-environment.py`) -/

/-- One entry of `jenkins_teams_config` as loaded from YAML; each field
the script reads may be absent.  `ports` records only whether the key
is present, since the script never reads its value. -/
structure TeamCfgY where
  team_name : Option String
  blue_green_enabled : Option Bool
  active_environment : Option String
  ports : Bool
deriving DecidableEq, Repr

/-- Parsed configuration file: the `jenkins_teams_config` key may be
absent. -/
structure ConfigY where
  jenkins_teams_config : Option (List TeamCfgY)
deriving DecidableEq, Repr

/-- Indexed scan of `find_team_in_config`'s loop: first entry whose
`team_name` equals the requested name, with its index. -/
def findTeamAux : List TeamCfgY → String → Nat → Option (TeamCfgY × Nat)
  | [], _, _ => none
  | tc :: rest, name, i =>
    if tc.team_name = some name then some (tc, i) else findTeamAux rest name (i + 1)

/-- Embeds `find_team_in_config` (update-team-environment.py, lines
64-76). -/
def find_team_in_config (config : ConfigY) (team_name : String) : Option (TeamCfgY × Nat) :=
  match config.jenkins_teams_config with
  | none => none
  | some teams => findTeamAux teams team_name 0

/-- Embeds `validate_environment` (update-team-environment.py, lines
78-83). -/
def validate_environment (environment : String) : Bool :=
  environment == "blue" || environment == "green"

/-- Contents of the configuration file as the script sees it: `none` =
file does not exist, `some none` = file exists but does not load as
YAML, `some (some c)` = file loads as configuration `c`.  OS-level copy
operations (backup creation and backup restore via `shutil.copy2`) are
modelled as always succeeding; the YAML write (`save_yaml_config`),
whose boolean result the script branches on, is controlled by the
`save_ok` argument. -/
abbrev FileState := Option (Option ConfigY)

/-- Assignment `teams[i]['active_environment'] = env` on the team
list. -/
def setActiveEnv : List TeamCfgY → Nat → String → List TeamCfgY
  | [], _, _ => []
  | tc :: rest, 0, env => { tc with active_environment := some env } :: rest
  | tc :: rest, Nat.succ i, env => tc :: setActiveEnv rest i env

/-- Embeds `update_team_environment` (update-team-environment.py, lines
85-150): validates the environment name, requires the file to exist,
backs it up, loads it, locates the team, succeeds without writing when
the team is already on the requested environment, otherwise writes the
updated configuration; if the write fails the backup is copied back
over the file.  The post-save verification re-load is deterministic in
this model and always confirms the write, so it is folded into the
success return.  Returns the script's boolean result and the file
contents after the run. -/
def update_team_environment (team_name new_environment : String)
    (file : FileState) (save_ok : Bool) : Bool × FileState :=
  if validate_environment new_environment = false then (false, file)
  else
    match file with
    | none => (false, none)
    | some contents =>
      match contents with
      | none => (false, some none)
      | some config =>
        match find_team_in_config config team_name with
        | none => (false, some (some config))
        | some (team_config, team_index) =>
          let current_environment := team_config.active_environment.getD "blue"
          if current_environment = new_environment then (true, some (some config))
          else
            let config' : ConfigY :=
              { jenkins_teams_config :=
                  config.jenkins_teams_config.map
                    (fun ts => setActiveEnv ts team_index new_environment) }
            if save_ok then (true, some (some config'))
            else (false, some (some config))

/-- Embeds `show_team_environments` (update-team-environment.py, lines
152-176): result flag together with the rows printed (team name,
environment, blue-green flag), each field defaulted when absent as the
source's `.get` calls do. -/
def show_team_environments (file : FileState) : Bool × List (String × String × Bool) :=
  match file with
  | none => (false, [])
  | some none => (false, [])
  | some (some config) =>
    match config.jenkins_teams_config with
    | none => (false, [])
    | some teams =>
      (true, teams.map (fun tc =>
        (tc.team_name.getD "unknown", tc.active_environment.getD "unknown",
         tc.blue_green_enabled.getD false)))

/-- The `missing_fields` list collected by `validate_team_configuration`
(update-team-environment.py, lines 189-194), in the source's field
order. -/
def missing_required_fields (tc : TeamCfgY) : List String :=
  (if tc.team_name.isSome then [] else ["team_name"])
  ++ (if tc.blue_green_enabled.isSome then [] else ["blue_green_enabled"])
  ++ (if tc.active_environment.isSome then [] else ["active_environment"])
  ++ (if tc.ports then [] else ["ports"])

/-- Embeds `validate_team_configuration` (update-team-environment.py,
lines 178-205): fails when the file does not load, the team is not
found, any required field is missing, or `blue_green_enabled` is not
true. -/
def validate_team_configuration (file : FileState) (team_name : String) : Bool :=
  match file with
  | none => false
  | some none => false
  | some (some config) =>
    match find_team_in_config config team_name with
    | none => false
    | some (team_config, _) =>
      if missing_required_fields team_config ≠ [] then false
      else if team_config.blue_green_enabled.getD false = false then false
      else true

/-! ## Theorems -/

/-- C1: starting from a breaker state that is closed with
`failure_count = 0`, one or two consecutive failures leave it closed;
the third consecutive failure opens it with
`cooldown_until = now + 1800` where `now` is the time of the third
failure; and a success from any state resets `failure_count` to 0,
`state` to closed and `cooldown_until` to 0. -/
theorem circuit_breaker_threshold_and_reset (s0 : CBState) (t1 t2 t3 : Int)
    (hs : s0.state = "closed") (hc : s0.failure_count = 0) :
    (update_circuit_breaker s0 true t1).state = "closed" ∧
    (update_circuit_breaker s0 true t1).failure_count = 1 ∧
    (update_circuit_breaker (update_circuit_breaker s0 true t1) true t2).state = "closed" ∧
    (update_circuit_breaker (update_circuit_breaker s0 true t1) true t2).failure_count = 2 ∧
    (update_circuit_breaker (update_circuit_breaker (update_circuit_breaker s0 true t1) true t2)
      true t3).state = "open" ∧
    (update_circuit_breaker (update_circuit_breaker (update_circuit_breaker s0 true t1) true t2)
      true t3).cooldown_until = t3 + 1800 ∧
    (∀ (s : CBState) (now : Int),
      (update_circuit_breaker s false now).failure_count = 0 ∧
      (update_circuit_breaker s false now).state = "closed" ∧
      (update_circuit_breaker s false now).cooldown_until = 0) := by
  simp +decide [update_circuit_breaker, hc, hs]

/-- C1 witness: three failures from the fixture's initial state open the
breaker with the cooldown anchored at the third failure time. -/
theorem circuit_breaker_threshold_and_reset_witness :
    (update_circuit_breaker (update_circuit_breaker (update_circuit_breaker
      ⟨"closed", 0, none, 0⟩ true 0) true 0) true 5).state = "open" :=
  (circuit_breaker_threshold_and_reset ⟨"closed", 0, none, 0⟩ 0 0 5 rfl rfl).2.2.2.2.1

/-- C3: an open breaker rejects a switch attempt before the cooldown
with the "cooldown active" message (the returned reason is literally
"Circuit breaker open - cooldown active", which contains "cooldown
active") and leaves the state unchanged; once the cooldown has elapsed
the attempt is admitted and the state moves to half-open; a closed
breaker always admits. -/
theorem circuit_breaker_admission (s : CBState) (now : Int) :
    (s.state = "open" → now < s.cooldown_until →
      can_execute_switch s now = (false, "Circuit breaker open - cooldown active", s)) ∧
    (s.state = "open" → s.cooldown_until ≤ now →
      can_execute_switch s now =
        (true, "Circuit breaker half-open - single attempt allowed",
          { s with state := "half-open" })) ∧
    (s.state = "closed" →
      can_execute_switch s now = (true, "Circuit breaker closed - operations allowed", s)) := by
  refine ⟨fun hs hlt => ?_, fun hs hge => ?_, fun hs => ?_⟩
  · simp [can_execute_switch, hs, hlt]
  · simp [can_execute_switch, hs, not_lt.mpr hge]
  · simp +decide [can_execute_switch, hs]

/-- C3 witness: a breaker opened until time 100 rejects an attempt at
time 10. -/
theorem circuit_breaker_admission_witness :
    can_execute_switch ⟨"open", 0, none, 100⟩ 10 =
      (false, "Circuit breaker open - cooldown active", ⟨"open", 0, none, 100⟩) :=
  (circuit_breaker_admission ⟨"open", 0, none, 100⟩ 10).1 rfl (by decide)

/-- C10: the open-to-half-open recovery rewrites only the `state` field,
keeping `failure_count` and `cooldown_until`; consequently a breaker
that entered half-open with `failure_count` already at or above the
threshold 3 re-opens on a single further failure report. -/
theorem circuit_breaker_recovery_frame (s : CBState) (now : Int)
    (hs : s.state = "open") (hcd : s.cooldown_until ≤ now) :
    (attempt_recovery s now).1 = true ∧
    (attempt_recovery s now).2.2 = { s with state := "half-open" } ∧
    (attempt_recovery s now).2.2.failure_count = s.failure_count ∧
    (attempt_recovery s now).2.2.cooldown_until = s.cooldown_until ∧
    (attempt_recovery s now).2.2.last_failure_time = s.last_failure_time ∧
    (∀ later : Int, 3 ≤ s.failure_count →
      (update_circuit_breaker (attempt_recovery s now).2.2 true later).state = "open") := by
  have h3 : ∀ later : Int, 3 ≤ s.failure_count →
      (update_circuit_breaker (attempt_recovery s now).2.2 true later).state = "open" := by
    intro later hfc
    have hstep : 3 ≤ ({ s with state := "half-open" } : CBState).failure_count + 1 :=
      Nat.le_succ_of_le hfc
    simp [attempt_recovery, hs, hcd, update_circuit_breaker, hstep]
  refine ⟨?_, ?_, ?_, ?_, ?_, h3⟩ <;> simp [attempt_recovery, hs, hcd]

/-- C10 witness: from the recovery test's state (open, failure count 5,
cooldown already expired), recovery keeps the failure count and one more
failure re-opens the breaker. -/
theorem circuit_breaker_recovery_frame_witness :
    (attempt_recovery ⟨"open", 5, none, 40⟩ 100).2.2.failure_count = 5 ∧
    (update_circuit_breaker (attempt_recovery ⟨"open", 5, none, 40⟩ 100).2.2
      true 100).state = "open" :=
  ⟨(circuit_breaker_recovery_frame ⟨"open", 5, none, 40⟩ 100 rfl (by decide)).2.2.1,
   (circuit_breaker_recovery_frame ⟨"open", 5, none, 40⟩ 100 rfl (by decide)).2.2.2.2.2
     100 (by decide)⟩

/-- C4: the rollback trigger fires (returns a non-empty condition list)
exactly when error rate exceeds 5%, response time exceeds 5000 ms, or
availability is below 95%; each breached condition contributes its own
message ("High error rate: ...", "High response time: ...ms",
"Low availability: ..."), and in particular (0.10, 200, 0.99) fires
citing the error rate while (0.02, 200, 0.99) returns no condition. -/
theorem rollback_trigger_conditions (e r a : ℚ) :
    (should_rollback e r a = [] ↔ ¬(5 / 100 < e ∨ 5000 < r ∨ a < 95 / 100)) ∧
    (5 / 100 < e → ("High error rate: " ++ formatPct e) ∈ should_rollback e r a) ∧
    (5000 < r → ("High response time: " ++ toString r ++ "ms") ∈ should_rollback e r a) ∧
    (a < 95 / 100 → ("Low availability: " ++ formatPct a) ∈ should_rollback e r a) ∧
    should_rollback (10 / 100) 200 (99 / 100) = ["High error rate: " ++ formatPct (10 / 100)] ∧
    should_rollback (2 / 100) 200 (99 / 100) = [] := by
  refine ⟨?_, ?_, ?_, ?_, by norm_num [should_rollback], by norm_num [should_rollback]⟩ <;>
  · by_cases h1 : (5:ℚ) / 100 < e <;> by_cases h2 : (5000:ℚ) < r <;>
      by_cases h3 : a < 95 / 100 <;>
      simp [should_rollback, h1, h2, h3]

/-- C4 witness: at error rate 10%, response time 200 ms and availability
99%, the error-rate condition is among the returned reasons. -/
theorem rollback_trigger_conditions_witness :
    ("High error rate: " ++ formatPct (10 / 100)) ∈
      should_rollback (10 / 100) 200 (99 / 100) :=
  (rollback_trigger_conditions (10 / 100) 200 (99 / 100)).2.1 (by norm_num)

/-- Replacing the value at a key that is present yields that value on
lookup. -/
theorem lookupDict_setDict {α : Type} (l : List (String × α)) (key : String) (v v' : α)
    (h : lookupDict l key = some v) : lookupDict (setDict l key v') key = some v' := by
  induction l with
  | nil => simp [lookupDict] at h
  | cons p rest ih =>
    obtain ⟨k, w⟩ := p
    by_cases hk : k = key
    · simp [lookupDict, setDict, hk]
    · simp only [lookupDict, setDict, if_neg hk] at h ⊢
      exact ih h

/-- C5: executing a rollback for a team present in the state reports
success and rewrites the team's record to the other colour (green goes
to blue, anything else — in particular blue — goes to green), with
`switch_count` incremented by exactly one, `last_rollback_reason` set
to the given reason and `last_rollback_time` written; a team absent
from the state yields failure and leaves the state untouched. -/
theorem execute_rollback_spec (teams : TeamsState) (name reason : String) :
    (lookupDict teams name = none →
      execute_rollback teams name reason = (false, "Team " ++ name ++ " not found", teams)) ∧
    (∀ t : TeamRec, lookupDict teams name = some t →
      (execute_rollback teams name reason).1 = true ∧
      lookupDict (execute_rollback teams name reason).2.2 name = some
        { active_environment := if t.active_environment = "green" then "blue" else "green",
          last_switch_time := t.last_switch_time,
          switch_count := t.switch_count + 1,
          last_rollback_time := some "2024-01-01T12:00:00Z",
          last_rollback_reason := some reason }) := by
  constructor
  · intro h
    simp [execute_rollback, h]
  · intro t h
    refine ⟨by simp [execute_rollback, h], ?_⟩
    simp only [execute_rollback, h]
    exact lookupDict_setDict teams name t _ h

/-- C5 witness: rolling back the fixture's "devops" team (active on
blue) succeeds and moves it to green with switch count 1 and the reason
recorded. -/
theorem execute_rollback_spec_witness :
    (execute_rollback [("devops", ⟨"blue", some "2024-01-01T00:00:00Z", 0, none, none⟩)]
      "devops" "High error rate detected").1 = true ∧
    lookupDict (execute_rollback
      [("devops", ⟨"blue", some "2024-01-01T00:00:00Z", 0, none, none⟩)]
      "devops" "High error rate detected").2.2 "devops" = some
        ⟨"green", some "2024-01-01T00:00:00Z", 1, some "2024-01-01T12:00:00Z",
          some "High error rate detected"⟩ :=
  (execute_rollback_spec [("devops", ⟨"blue", some "2024-01-01T00:00:00Z", 0, none, none⟩)]
    "devops" "High error rate detected").2
    ⟨"blue", some "2024-01-01T00:00:00Z", 0, none, none⟩ rfl

/-- C6 counterexample: at CPU utilization exactly equal to the default
threshold (80) the check passes, although 80 is not below the
threshold, so "passes exactly when each utilization is below its
threshold" is false as stated. -/
theorem resource_check_boundary_counterexample :
    (check_resource_availability 80 60 defaultThresholds).1 = true ∧
    ¬((80:ℚ) < defaultThresholds.cpu ∧ (60:ℚ) < defaultThresholds.memory) := by
  decide

/-- C6 (amended): the resource-availability check passes exactly when
CPU utilization is at or below the CPU threshold and memory utilization
is at or below the memory threshold (the source fails only on strict
excess); the two checks are evaluated independently, each violation
contributes its own message naming the actual and maximum values, both
messages appear (CPU first) when both are violated, and the verdict is
true exactly when the issue list is empty. -/
theorem resource_check_amended (cpu mem : ℚ) (th : ResourceThresholds) :
    ((check_resource_availability cpu mem th).1 = true ↔ cpu ≤ th.cpu ∧ mem ≤ th.memory) ∧
    ((check_resource_availability cpu mem th).1 = true ↔ resource_issues cpu mem th = []) ∧
    (th.cpu < cpu →
      ("CPU usage too high: " ++ toString cpu ++ "% (max: " ++ toString th.cpu ++ "%)")
        ∈ resource_issues cpu mem th) ∧
    (th.memory < mem →
      ("Memory usage too high: " ++ toString mem ++ "% (max: " ++ toString th.memory ++ "%)")
        ∈ resource_issues cpu mem th) ∧
    (th.cpu < cpu → th.memory < mem →
      resource_issues cpu mem th =
        ["CPU usage too high: " ++ toString cpu ++ "% (max: " ++ toString th.cpu ++ "%)",
         "Memory usage too high: " ++ toString mem ++ "% (max: " ++ toString th.memory ++ "%)"]) := by
  by_cases h1 : th.cpu < cpu <;> by_cases h2 : th.memory < mem
  · simp [check_resource_availability, resource_issues, h1, h2, not_le.mpr h1, not_le.mpr h2]
  · simp [check_resource_availability, resource_issues, h1, h2, not_le.mpr h1, not_lt.mp h2]
  · simp [check_resource_availability, resource_issues, h1, h2, not_lt.mp h1, not_le.mpr h2]
  · simp [check_resource_availability, resource_issues, h1, h2, not_lt.mp h1, not_lt.mp h2]

/-- C6 witness: at the normal test inputs (CPU 50, memory 60, default
thresholds) the check passes. -/
theorem resource_check_amended_witness :
    (check_resource_availability 50 60 defaultThresholds).1 = true :=
  ((resource_check_amended 50 60 defaultThresholds).1).mpr (by decide)

/-- Assigning a key that is not yet in the dictionary appends the new
entry. -/
theorem dictInsert_of_not_mem {α : Type} (l : List (String × α)) (key : String) (v : α)
    (h : key ∉ l.map Prod.fst) : dictInsert l key v = l ++ [(key, v)] := by
  induction l with
  | nil => rfl
  | cons p rest ih =>
    obtain ⟨k, w⟩ := p
    simp only [List.map_cons, List.mem_cons, not_or] at h
    have hk : ¬(k = key) := fun he => h.1 he.symm
    simp only [dictInsert, if_neg hk, List.cons_append, List.cons.injEq, true_and]
    exact ih h.2

/-- Building the routing dictionary over teams with pairwise distinct
names appends one entry per team in order. -/
theorem buildDict_append {α : Type} (f : TeamBG → α) (teams : List TeamBG)
    (acc : List (String × α)) (hnd : (teams.map TeamBG.team_name).Nodup)
    (hdisj : ∀ t ∈ teams, t.team_name ∉ acc.map Prod.fst) :
    buildDict f teams acc = acc ++ teams.map (fun t => (t.team_name, f t)) := by
  induction teams generalizing acc with
  | nil => simp [buildDict]
  | cons t ts ih =>
    simp only [List.map_cons, List.nodup_cons] at hnd
    rw [buildDict, dictInsert_of_not_mem acc t.team_name (f t) (hdisj t (by simp)),
      ih (acc ++ [(t.team_name, f t)]) hnd.2 ?_]
    · simp
    · intro u hu
      simp only [List.map_append, List.mem_append, List.map_cons, List.map_nil,
        List.mem_singleton, not_or]
      refine ⟨hdisj u (List.mem_cons_of_mem t hu), fun he => hnd.1 ?_⟩
      exact he ▸ List.mem_map_of_mem TeamBG.team_name hu

/-- Lookup of a present team's name in the per-team map built from a
list with pairwise distinct names yields that team's value. -/
theorem lookupDict_map_of_mem {α : Type} (teams : List TeamBG) (f : TeamBG → α) (t : TeamBG)
    (ht : t ∈ teams) (hnd : (teams.map TeamBG.team_name).Nodup) :
    lookupDict (teams.map (fun u => (u.team_name, f u))) t.team_name = some (f t) := by
  induction teams with
  | nil => cases ht
  | cons u ts ih =>
    simp only [List.map_cons, List.nodup_cons] at hnd
    rcases List.mem_cons.mp ht with h | h
    · subst h
      simp [lookupDict]
    · have hne : u.team_name ≠ t.team_name := fun he =>
        hnd.1 (he ▸ List.mem_map_of_mem TeamBG.team_name h)
      simp only [List.map_cons, lookupDict, if_neg hne]
      exact ih h hnd.2

/-- C7: routing generation is a pure function — two generations from the
same team states are identical — and, for team states with pairwise
distinct team names, every team's generated entry routes primarily to
`jenkins-<team>-<active_environment>` with backup
`jenkins-<team>-<other colour>` and carries the team-keyed ACL, backend
name and health check; the `update_haproxy_routing` backends carry the
same primary/backup pair. -/
theorem routing_generation_pure_and_shaped (teams : List TeamBG) (env : String) :
    update_haproxy_routing env teams = update_haproxy_routing env teams ∧
    configure_team_routing teams = configure_team_routing teams ∧
    ((teams.map TeamBG.team_name).Nodup → ∀ t ∈ teams,
      lookupDict (configure_team_routing teams) t.team_name = some
        { acl := "path_beg /" ++ t.team_name ++ "/",
          backend := "jenkins_" ++ t.team_name ++ "_backend",
          primary_server := "jenkins-" ++ t.team_name ++ "-" ++ t.active_environment,
          backup_server := "jenkins-" ++ t.team_name ++ "-" ++
            (if t.active_environment = "blue" then "green" else "blue"),
          health_check := "httpchk GET /" ++ t.team_name ++ "/login" } ∧
      lookupDict (update_haproxy_routing env teams).backends t.team_name = some
        { primary := "jenkins-" ++ t.team_name ++ "-" ++ t.active_environment,
          backup := "jenkins-" ++ t.team_name ++ "-" ++
            (if t.active_environment = "blue" then "green" else "blue"),
          active_port := if t.active_environment = "blue" then 8080 else 8081 }) := by
  refine ⟨rfl, rfl, fun hnd t ht => ⟨?_, ?_⟩⟩
  · have h1 : configure_team_routing teams =
        teams.map (fun u => (u.team_name, routingFor u)) := by
      simpa [configure_team_routing] using
        buildDict_append routingFor teams [] hnd (by simp)
    rw [h1, lookupDict_map_of_mem teams routingFor t ht hnd]
    simp [routingFor, otherEnv]
  · have h1 : (update_haproxy_routing env teams).backends =
        teams.map (fun u => (u.team_name, backendFor u)) := by
      simpa [update_haproxy_routing] using
        buildDict_append backendFor teams [] hnd (by simp)
    rw [h1, lookupDict_map_of_mem teams backendFor t ht hnd]
    simp [backendFor, otherEnv]

/-- C7 witness: for the test's two-team state, the "devops" entry (active
blue) routes primarily to jenkins-devops-blue with backup
jenkins-devops-green and the devops-keyed ACL and health check. -/
theorem routing_generation_pure_and_shaped_witness :
    lookupDict (configure_team_routing [⟨"devops", "blue"⟩, ⟨"qa", "green"⟩]) "devops" = some
      { acl := "path_beg /" ++ "devops" ++ "/",
        backend := "jenkins_" ++ "devops" ++ "_backend",
        primary_server := "jenkins-" ++ "devops" ++ "-" ++ "blue",
        backup_server := "jenkins-" ++ "devops" ++ "-" ++
          (if ("blue" : String) = "blue" then "green" else "blue"),
        health_check := "httpchk GET /" ++ "devops" ++ "/login" } :=
  ((routing_generation_pure_and_shaped [⟨"devops", "blue"⟩, ⟨"qa", "green"⟩] "blue").2.2
    (by decide) ⟨"devops", "blue"⟩ (by decide)).1

/-- C2: whenever the team-environment update reports failure — the
target environment name invalid, the file missing, the file
unparseable, the team absent, or the write failing — the configuration
file's contents after the operation equal its contents before it (on a
write failure the prior contents come back from the backup). -/
theorem update_team_environment_all_or_nothing (team env : String) (file : FileState)
    (save_ok : Bool) :
    ((update_team_environment team env file save_ok).1 = false →
      (update_team_environment team env file save_ok).2 = file) ∧
    (validate_environment env = false →
      (update_team_environment team env file save_ok).1 = false) ∧
    (file = none → (update_team_environment team env file save_ok).1 = false) ∧
    (∀ cfg : ConfigY, file = some (some cfg) → find_team_in_config cfg team = none →
      (update_team_environment team env file save_ok).1 = false) := by
  cases hv : validate_environment env
  · simp [update_team_environment, hv]
  · rcases file with _ | (_ | cfg)
    · simp [update_team_environment, hv]
    · simp [update_team_environment, hv]
    · cases hf : find_team_in_config cfg team with
      | none => simp [update_team_environment, hv, hf]
      | some p =>
        obtain ⟨tc, i⟩ := p
        by_cases hc : tc.active_environment.getD "blue" = env
        · simp [update_team_environment, hv, hf, hc]
        · cases save_ok
          · simp [update_team_environment, hv, hf, hc]
          · simp [update_team_environment, hv, hf, hc]

/-- C2 witness: a failing write for a real team leaves the prior
configuration in place. -/
theorem update_team_environment_all_or_nothing_witness :
    (update_team_environment "devops" "green"
      (some (some ⟨some [⟨some "devops", some true, some "blue", true⟩]⟩)) false).2 =
      some (some ⟨some [⟨some "devops", some true, some "blue", true⟩]⟩) :=
  (update_team_environment_all_or_nothing "devops" "green"
    (some (some ⟨some [⟨some "devops", some true, some "blue", true⟩]⟩)) false).1 (by decide)

/-- Structurally invalid team record of the C8 scenario: the
`active_environment` key is absent. -/
def corruptTeam : TeamCfgY :=
  { team_name := some "devops", blue_green_enabled := some true,
    active_environment := none, ports := true }

/-- Configuration holding only the structurally invalid team record. -/
def corruptConfig : ConfigY := { jenkins_teams_config := some [corruptTeam] }

/-- C8 counterexample: for a team record missing `active_environment`,
the script does not fail closed — the update command succeeds treating
the team as active on blue (a request to set blue is accepted as a
no-op), and the show command succeeds reporting the environment as
"unknown"; no read is refused. -/
theorem corrupted_record_fails_open :
    corruptTeam.active_environment = none ∧
    update_team_environment "devops" "blue" (some (some corruptConfig)) true =
      (true, some (some corruptConfig)) ∧
    (show_team_environments (some (some corruptConfig))).1 = true ∧
    (show_team_environments (some (some corruptConfig))).2 =
      [("devops", "unknown", true)] := by
  decide

/-- C8 (amended): a team record missing `active_environment` is not
refused: `update_team_environment` substitutes the default "blue" for
the missing field — so an update request targeting blue succeeds
without touching the file — and `show_team_environments` succeeds,
reporting such a team's environment as "unknown". -/
theorem missing_environment_defaults (cfg : ConfigY) (team : String) (tc : TeamCfgY)
    (i : Nat) (save_ok : Bool) (hf : find_team_in_config cfg team = some (tc, i))
    (ha : tc.active_environment = none) :
    update_team_environment team "blue" (some (some cfg)) save_ok =
      (true, some (some cfg)) ∧
    (show_team_environments (some (some cfg))).1 = true := by
  constructor
  · simp +decide [update_team_environment, hf, ha]
  · rcases hcfg : cfg.jenkins_teams_config with _ | teams
    · rw [find_team_in_config, hcfg] at hf
      cases hf
    · simp [show_team_environments, hcfg]

/-- C8 witness: the amended behaviour at the corrupted one-team
configuration. -/
theorem missing_environment_defaults_witness :
    update_team_environment "devops" "blue" (some (some corruptConfig)) true =
      (true, some (some corruptConfig)) :=
  (missing_environment_defaults corruptConfig "devops" corruptTeam 0 true (by decide) rfl).1

/-- Team record of the C9 scenario: every required field present but
blue-green deployment disabled. -/
def disabledTeam : TeamCfgY :=
  { team_name := some "devops", blue_green_enabled := some false,
    active_environment := some "blue", ports := true }

/-- Configuration holding only the disabled team record. -/
def disabledConfig : ConfigY := { jenkins_teams_config := some [disabledTeam] }

/-- C9 counterexample: a team that is found and has all four required
fields present still fails validation when `blue_green_enabled` is
false, so "succeeds exactly when the team is found and all four
required fields are present" is false as stated. -/
theorem validate_team_configuration_counterexample :
    find_team_in_config disabledConfig "devops" = some (disabledTeam, 0) ∧
    missing_required_fields disabledTeam = [] ∧
    validate_team_configuration (some (some disabledConfig)) "devops" = false := by
  decide

/-- C9 (amended): validation succeeds exactly when the configuration
loads, the team is found, all four required fields — team_name,
blue_green_enabled, active_environment, ports — are present, and
`blue_green_enabled` is true; and the collected missing-field list
names exactly the absent fields. -/
theorem validate_team_configuration_amended :
    (∀ (file : FileState) (team : String),
      validate_team_configuration file team = true ↔
        ∃ (cfg : ConfigY) (tc : TeamCfgY) (i : Nat),
          file = some (some cfg) ∧ find_team_in_config cfg team = some (tc, i) ∧
          missing_required_fields tc = [] ∧ tc.blue_green_enabled = some true) ∧
    (∀ tc : TeamCfgY,
      (("team_name" ∈ missing_required_fields tc) ↔ tc.team_name = none) ∧
      (("blue_green_enabled" ∈ missing_required_fields tc) ↔ tc.blue_green_enabled = none) ∧
      (("active_environment" ∈ missing_required_fields tc) ↔ tc.active_environment = none) ∧
      (("ports" ∈ missing_required_fields tc) ↔ tc.ports = false)) := by
  constructor
  · intro file team
    constructor
    · intro h
      rcases file with _ | (_ | cfg)
      · simp [validate_team_configuration] at h
      · simp [validate_team_configuration] at h
      · cases hf : find_team_in_config cfg team with
        | none => simp [validate_team_configuration, hf] at h
        | some p =>
          obtain ⟨tc, i⟩ := p
          simp only [validate_team_configuration, hf] at h
          split_ifs at h with h1 h2
          · have hm : missing_required_fields tc = [] := not_not.mp h1
            have hb : tc.blue_green_enabled = some true := by
              rcases hbg : tc.blue_green_enabled with _ | b
              · rw [hbg] at h2
                simp at h2
              · cases b
                · rw [hbg] at h2
                  simp at h2
                · rfl
            exact ⟨cfg, tc, i, rfl, hf, hm, hb⟩
    · rintro ⟨cfg, tc, i, rfl, hf, hm, hb⟩
      simp [validate_team_configuration, hf, hm, hb]
  · intro tc
    obtain ⟨tn, bg, ae, p⟩ := tc
    cases tn <;> cases bg <;> cases ae <;> cases p <;>
      simp +decide [missing_required_fields]

/-- C9 witness: a complete, enabled team record validates
successfully. -/
theorem validate_team_configuration_amended_witness :
    validate_team_configuration
      (some (some ⟨some [⟨some "devops", some true, some "blue", true⟩]⟩)) "devops" = true :=
  ((validate_team_configuration_amended.1
    (some (some ⟨some [⟨some "devops", some true, some "blue", true⟩]⟩)) "devops").mpr
    ⟨⟨some [⟨some "devops", some true, some "blue", true⟩]⟩,
      ⟨some "devops", some true, some "blue", true⟩, 0, rfl, rfl, rfl, rfl⟩)

end JenkinsHA
